import Mathlib

/-!
Shallow embedding of the passwordless ("magic link") authentication subsystem of
the repository (files `user_management/login.py`, `user_management/magic_login.py`,
`user_management/auth.py`), together with theorems checking the specification's
claims against it.

Modelling conventions:
- the PostgreSQL tables `hercules_users` and `hercules_login_magic_link` are
  lists of rows inside a `DB` state; the `PostgresService` read/insert/update
  calls are modelled as pure state transformers that always succeed (the
  source's branches for a failing database collaborator are environmental and
  out of model);
- timestamps (`datetime.now()`, `expiry`) are integers counting seconds;
  `timedelta(minutes=10)` is `600`;
- the outside collaborators `send_email` (boolean success) and `uuid.uuid4()`
  (the freshly minted token string) become explicit parameters;
- a Dash callback's `raise PreventUpdate` becomes a `prevented` result, and
  `_generate_error_response(msg)` becomes an `errorResponse msg` / `errorAlert
  msg` result carrying the user-visible message string.
-/

namespace Hercules

/-- Row of the `hercules_users` table, as read by `login.py` and
`magic_login.py` (`SELECT * FROM hercules_users WHERE email = :email`). -/
structure UserRow where
  user_id : Nat
  name : String
  email : String
  is_admin : Bool
  is_approved : Bool
deriving DecidableEq, Repr

/-- Row of the `hercules_login_magic_link` table: `(email, token, expiry)`,
with `email` the conflict key of the upsert in `send_magic_link`. -/
structure TokenRow where
  email : String
  token : String
  expiry : Int
deriving DecidableEq, Repr

/-- The database state shared by issuance and validation. -/
structure DB where
  users : List UserRow
  magicLinks : List TokenRow
deriving DecidableEq, Repr

/-- The read `SELECT email FROM hercules_login_magic_link WHERE token = :token
AND expiry > :now` performed by `validate_magic_link` (magic_login.py lines
105-109), returning the list of matching emails. -/
def selectValidEmails (db : DB) (token : String) (now : Int) : List String :=
  (db.magicLinks.filter (fun r => r.token == token && decide (now < r.expiry))).map (fun r => r.email)

/-- The update `UPDATE hercules_login_magic_link SET expiry = :now WHERE token
= :token` performed by `_invalidate_token` (magic_login.py lines 151-164). -/
def invalidateToken (db : DB) (token : String) (now : Int) : DB :=
  { db with
    magicLinks := db.magicLinks.map (fun r =>
      if r.token == token then { r with expiry := now } else r) }

/-- The upsert `INSERT INTO hercules_login_magic_link (email, token, expiry)
VALUES ... ON CONFLICT (email) DO UPDATE SET token = :token, expiry = :expiry`
performed by `send_magic_link` (login.py lines 222-228).  On conflict the
existing row(s) for the email keep their email and receive the new token and
expiry; otherwise a fresh row is appended. -/
def upsertMagicLink (db : DB) (email token : String) (expiry : Int) : DB :=
  if db.magicLinks.any (fun r => r.email == email) then
    { db with
      magicLinks := db.magicLinks.map (fun r =>
        if r.email == email then { r with token := token, expiry := expiry } else r) }
  else
    { db with magicLinks := db.magicLinks ++ [{ email := email, token := token, expiry := expiry }] }

/-- Characters admitted by the local part `[a-zA-Z0-9_.+-]` of the email
regular expression in `validate_email` (login.py line 138). -/
def isLocalChar (c : Char) : Bool :=
  c.isAlpha || c.isDigit || c == '_' || c == '.' || c == '+' || c == '-'

/-- Match of the body of the pattern `^[a-zA-Z0-9_.+-]+@allianz\.(com|de)$`
against a whole character list: a nonempty run of local characters followed by
the literal `@allianz.com` or `@allianz.de`.  Since `@` is not a local
character, the greedy maximal prefix of local characters is the only possible
local part. -/
def emailCoreMatch (cs : List Char) : Bool :=
  let l := cs.takeWhile isLocalChar
  !l.isEmpty &&
    (cs.drop l.length == "@allianz.com".toList || cs.drop l.length == "@allianz.de".toList)

/-- Python `re.match` of `^[a-zA-Z0-9_.+-]+@allianz\.(com|de)$` against `s`.
In Python, `$` matches at the end of the string or just before a single
trailing newline, so the pattern also accepts a match whose remainder is one
final newline character. -/
def emailRegexMatch (s : String) : Bool :=
  emailCoreMatch s.toList ||
    (s.toList.getLast? == some '\n' && emailCoreMatch s.toList.dropLast)

/-- The callback `validate_email` (login.py lines 124-143): `some message` is
the truthy error string returned for an empty or non-matching email, `none` is
the falsy `False` returned for a well-formed email. -/
def validate_email (email : String) : Option String :=
  if email = "" then some "Email cannot be empty."
  else if emailRegexMatch email then none
  else some "Invalid email format. Please enter a valid Allianz email (e.g., @allianz.com or @allianz.de)."

/-- Result of the `send_magic_link` callback (login.py lines 172-266), as the
user observes it: `prevented` models `raise PreventUpdate`; `errorAlert msg`
models `_generate_error_response(msg)` (a red alert, polling left untouched);
`emailSent` models the success tuple that shows the blue "Email Sent..!"
alert, enables the `poll_auth` interval and sets the resend flag to 60. -/
inductive LoginResult where
  | prevented
  | errorAlert (message : String)
  | emailSent
deriving DecidableEq, Repr

/-- The chars of the separator `"token="` used by `validate_magic_link` to
split the query string. -/
def tokenSepChars : List Char := "token=".toList

/-- Characters following the first occurrence of `token=` in `cs`, or `none`
when `token=` does not occur (Python `"token=" in search`). -/
def charsAfterTokenSep : List Char → Option (List Char)
  | [] => none
  | c :: rest =>
    if tokenSepChars.isPrefixOf (c :: rest) then some (rest.drop (tokenSepChars.length - 1))
    else charsAfterTokenSep rest

/-- Prefix of `cs` up to (excluding) the next occurrence of `token=`. -/
def charsUpToTokenSep : List Char → List Char
  | [] => []
  | c :: rest =>
    if tokenSepChars.isPrefixOf (c :: rest) then []
    else c :: charsUpToTokenSep rest

/-- The token extraction `search.split("token=")[1] if "token=" in search else
None` of `validate_magic_link` (magic_login.py line 98): Python `str.split`
cuts at every non-overlapping occurrence of the separator, so element 1 is the
text between the first occurrence of `token=` and the following one (or the
end of the string). -/
def extractToken (search : String) : Option String :=
  (charsAfterTokenSep search.toList).map (fun cs => String.mk (charsUpToTokenSep cs))

/-- Result of the `validate_magic_link` callback (magic_login.py lines
85-123), as the user observes it: `prevented` models `raise PreventUpdate`
(wrong pathname); `errorResponse msg` models `_generate_error_response(msg)`
(the red text card with a back-to-login button, store and pathname left
untouched); `success email` models the tuple returned by `_authenticate_user`
on success, after `login_user` ran and the store was set to
`login_success = True`. -/
inductive MagicResult where
  | prevented
  | errorResponse (message : String)
  | success (email : String)
deriving DecidableEq, Repr

/-- The helper `_authenticate_user` (magic_login.py lines 167-204): looks the
user up by email, rejects an unknown user and an unapproved user, and
otherwise logs the user in (`login_user`; modelled by the `success`
constructor).  It only reads the database. -/
def authenticateUser (db : DB) (email : String) : MagicResult :=
  match db.users.find? (fun u => u.email == email) with
  | none => .errorResponse "An error occurred while logging in. Please try again later."
  | some u =>
    if !u.is_approved then
      .errorResponse "Your account is not approved yet. Please contact the admin."
    else
      .success email

/-- The callback `validate_magic_link` (magic_login.py lines 85-123): extract
the token from the query string, read the matching unexpired row, invalidate
the token (`_invalidate_token`, modelled as a successful update), then
authenticate the first returned email.  Returns the observable result and the
database state after the callback. -/
def validate_magic_link (db : DB) (pathname search : String) (now : Int) : MagicResult × DB :=
  if pathname ≠ "/magic_login" then (.prevented, db)
  else
    match extractToken search with
    | none => (.errorResponse "Invalid or expired magic link.", db)
    | some token =>
      if token = "" then (.errorResponse "Invalid or expired magic link.", db)
      else
        match selectValidEmails db token now with
        | [] => (.errorResponse "Invalid or expired magic link.", db)
        | email :: _ =>
          let db' := invalidateToken db token now
          (authenticateUser db' email, db')

/-- The callback `send_magic_link` (login.py lines 172-266).  `login_n_clicks`
and `email_submit` are the (nullable) click/submit counters, `email_sent_flag`
the resend-countdown flag, `emailOk` the boolean returned by the `send_email`
collaborator, `token` the value minted by `uuid.uuid4()`, `now` the current
time.  The insert is modelled as a successful upsert. -/
def send_magic_link (db : DB) (login_n_clicks email_submit : Option Nat)
    (email : String) (email_sent_flag : Int) (emailOk : Bool) (now : Int)
    (token : String) : LoginResult × DB :=
  if (validate_email email).isSome then (.prevented, db)
  else if ((login_n_clicks = none ∨ login_n_clicks = some 0) ∧
      (email_submit = none ∨ email_submit = some 0)) ∨ email_sent_flag > 0 then
    (.prevented, db)
  else
    match db.users.find? (fun u => u.email == email) with
    | none => (.errorAlert "Email not registered!", db)
    | some u =>
      if !u.is_approved then
        (.errorAlert "Your email is not approved. Please contact the admin.", db)
      else
        let expiry := now + 600
        let db1 := upsertMagicLink db email token expiry
        if emailOk then (.emailSent, db1)
        else (.errorAlert "An error occurred. Please try again later.", db1)

/-- The `interval` attribute (milliseconds) of the `poll_auth` `dcc.Interval`
component (login.py line 110): the polling callback fires once per second. -/
def poll_auth_interval_ms : Nat := 1000

/-- Output tuple of the clientside polling callback attached to `poll_auth`
(login.py lines 302-334): whether the interval is disabled, and the
(`no_update`-able, hence `Option`) login-button disabled state, login-button
label and new resend-flag value. -/
structure PollOutput where
  pollDisabled : Bool
  loginBtnDisabled : Option Bool
  loginBtnLabel : Option String
  emailSentFlagOut : Option Int
deriving DecidableEq, Repr

/-- The clientside polling function (login.py lines 302-334), as a pure
function of the `hercules_logged_in` local-storage flag, the tick counter
`n_intervals` and the resend flag `email_sent_flag`. -/
def poll_tick (loggedIn : Bool) (n_intervals : Nat) (email_sent_flag : Int) : PollOutput :=
  if loggedIn then
    { pollDisabled := true, loginBtnDisabled := none, loginBtnLabel := none,
      emailSentFlagOut := none }
  else if n_intervals ≥ 600 then
    { pollDisabled := true, loginBtnDisabled := some true, loginBtnLabel := some "Reload Page",
      emailSentFlagOut := some email_sent_flag }
  else if email_sent_flag > 0 then
    { pollDisabled := false, loginBtnDisabled := some true,
      loginBtnLabel := some ("Resend Email in " ++ toString email_sent_flag ++ " seconds"),
      emailSentFlagOut := some (email_sent_flag - 1) }
  else
    { pollDisabled := false, loginBtnDisabled := some false, loginBtnLabel := some "Resend Email",
      emailSentFlagOut := some 0 }

/-- Client-local state of the polling loop: the current `n_intervals` value of
the `poll_auth` interval, the stored resend flag, and whether the interval is
disabled. -/
structure PollState where
  n : Nat
  flag : Int
  disabled : Bool
deriving DecidableEq, Repr

/-- One second of the polling loop with the success flag never set: a disabled
interval fires no tick; an enabled one increments `n_intervals` and runs the
clientside callback, whose outputs update the interval and the flag store. -/
def pollStep (s : PollState) : PollState :=
  if s.disabled then s
  else
    let o := poll_tick false (s.n + 1) s.flag
    { n := s.n + 1, flag := o.emailSentFlagOut.getD s.flag, disabled := o.pollDisabled }

/-- The polling loop run for `k` seconds. -/
def pollRun (s : PollState) : Nat → PollState
  | 0 => s
  | k + 1 => pollRun (pollStep s) k

/-- Execution phase of one concurrent run of `validate_magic_link` on a valid
pathname and query string, split at the two database statements the source
issues separately: the `SELECT` of the matching unexpired row and the
consuming `UPDATE` plus user authentication. -/
inductive AttemptPhase where
  | initial
  | passedCheck (email : String)
  | failedCheck
  | finished (succeeded : Bool)
deriving DecidableEq, Repr

/-- One concurrent validation attempt: the time at which it runs
(`datetime.now()` captured at its start) and its phase. -/
structure ValAttempt where
  now : Int
  phase : AttemptPhase
deriving DecidableEq, Repr

/-- Shared state of several concurrent validation attempts against one
database. -/
structure ConcState where
  db : DB
  attempts : List ValAttempt
deriving DecidableEq, Repr

/-- Attempt `i` executes the first database statement of
`validate_magic_link`: the `SELECT` that checks token and expiry
(magic_login.py lines 105-110). -/
def stepCheck (s : ConcState) (i : Nat) (token : String) : ConcState :=
  match s.attempts[i]? with
  | none => s
  | some a =>
    match a.phase with
    | .initial =>
      match selectValidEmails s.db token a.now with
      | [] => { s with attempts := s.attempts.set i { a with phase := .failedCheck } }
      | email :: _ => { s with attempts := s.attempts.set i { a with phase := .passedCheck email } }
    | _ => s

/-- Attempt `i` executes the rest of `validate_magic_link`: after a passed
check, the consuming `UPDATE` of `_invalidate_token` followed by
`_authenticate_user` (which only reads the untouched `hercules_users` table,
so it is folded into this step); after a failed check, the error response. -/
def stepConsume (s : ConcState) (i : Nat) (token : String) : ConcState :=
  match s.attempts[i]? with
  | none => s
  | some a =>
    match a.phase with
    | .passedCheck email =>
      let db' := invalidateToken s.db token a.now
      let ok := authenticateUser db' email = .success email
      { db := db', attempts := s.attempts.set i { a with phase := .finished ok } }
    | .failedCheck =>
      { s with attempts := s.attempts.set i { a with phase := .finished false } }
    | _ => s

/-- A scheduler action: which attempt runs which of its two phases next. -/
inductive CAction where
  | check (i : Nat)
  | consume (i : Nat)
deriving DecidableEq, Repr

/-- Run a whole interleaving of the concurrent validation attempts. -/
def runSchedule (token : String) (s : ConcState) : List CAction → ConcState
  | [] => s
  | .check i :: rest => runSchedule token (stepCheck s i token) rest
  | .consume i :: rest => runSchedule token (stepConsume s i token) rest

/-- Number of attempts that returned success to their caller. -/
def successCount (s : ConcState) : Nat :=
  (s.attempts.filter (fun a => a.phase == .finished true)).length

/-- A demonstration account, registered and approved. -/
def demoUser : UserRow :=
  { user_id := 1, name := "Alice", email := "alice@allianz.com", is_admin := false,
    is_approved := true }

/-- A demonstration database holding only the approved account. -/
def demoDB : DB := { users := [demoUser], magicLinks := [] }

theorem select_eq_nil_of_no_match (db : DB) (tok : String) (now : Int)
    (h : ∀ r ∈ db.magicLinks, r.token = tok → r.expiry ≤ now) :
    selectValidEmails db tok now = [] := by
  unfold selectValidEmails
  rw [List.map_eq_nil_iff, List.filter_eq_nil_iff]
  intro r hr
  simp only [Bool.and_eq_true, beq_iff_eq, decide_eq_true_eq, not_and]
  intro htok hlt
  exact absurd hlt (not_lt.mpr (h r hr htok))

theorem select_invalidate_eq_nil (db : DB) (tok : String) (t t' : Int) (h : t ≤ t') :
    selectValidEmails (invalidateToken db tok t) tok t' = [] := by
  apply select_eq_nil_of_no_match
  intro r hr htok
  simp only [invalidateToken, List.mem_map] at hr
  obtain ⟨r0, _, hr0⟩ := hr
  by_cases hc : r0.token == tok
  · simp only [hc, if_pos] at hr0
    simp [← hr0, h]
  · simp only [hc] at hr0
    simp only [Bool.false_eq_true, if_false] at hr0
    subst hr0
    exact absurd (beq_iff_eq.mpr htok) (by simp_all)

theorem mem_upsert (db : DB) (e tok : String) (exp : Int) (r : TokenRow)
    (hr : r ∈ (upsertMagicLink db e tok exp).magicLinks) :
    (r.email = e ∧ r.token = tok ∧ r.expiry = exp) ∨ (r ∈ db.magicLinks ∧ r.email ≠ e) := by
  unfold upsertMagicLink at hr
  by_cases hany : db.magicLinks.any (fun r => r.email == e)
  · simp only [hany, if_pos] at hr
    simp only [List.mem_map] at hr
    obtain ⟨r0, hr0mem, hr0⟩ := hr
    by_cases hc : r0.email == e
    · simp only [hc, if_pos] at hr0
      left
      refine ⟨?_, ?_, ?_⟩ <;> simp [← hr0, beq_iff_eq.mp hc]
    · simp only [hc] at hr0
      simp only [Bool.false_eq_true, if_false] at hr0
      subst hr0
      exact Or.inr ⟨hr0mem, by simpa using hc⟩
  · simp only [hany] at hr
    simp only [Bool.false_eq_true, if_false, List.mem_append, List.mem_singleton] at hr
    rcases hr with hmem | hnew
    · refine Or.inr ⟨hmem, ?_⟩
      simp only [List.any_eq_true, not_exists, not_and, Bool.not_eq_true] at hany
      simpa using hany r hmem
    · subst hnew
      exact Or.inl ⟨rfl, rfl, rfl⟩

theorem upsert_emails_nodup (db : DB) (e tok : String) (exp : Int)
    (h : (db.magicLinks.map (fun r => r.email)).Nodup) :
    ((upsertMagicLink db e tok exp).magicLinks.map (fun r => r.email)).Nodup := by
  unfold upsertMagicLink
  by_cases hany : db.magicLinks.any (fun r => r.email == e)
  · simp only [hany, if_pos, List.map_map]
    have : ((fun r => r.email) ∘ fun r =>
        if r.email == e then { r with token := tok, expiry := exp } else r) =
        (fun r : TokenRow => r.email) := by
      funext r
      by_cases hc : r.email == e
      · simp only [Function.comp_apply, hc, if_pos]
      · simp only [Function.comp_apply, hc, Bool.false_eq_true, if_false]
    rw [this]
    exact h
  · simp only [hany, Bool.false_eq_true, if_false, List.map_append]
    simp only [List.map_cons, List.map_nil]
    rw [List.nodup_append]
    refine ⟨h, List.nodup_singleton e, ?_⟩
    intro a ha hb
    simp only [List.mem_singleton] at hb
    subst hb
    simp only [List.mem_map] at ha
    obtain ⟨r, hrmem, hre⟩ := ha
    simp only [List.any_eq_true, not_exists, not_and, Bool.not_eq_true] at hany
    exact absurd (beq_iff_eq.mpr hre) (by simpa using hany r hrmem)

theorem select_upsert_replicate (l : List TokenRow) (e tok : String) (exp now : Int)
    (hF : ∀ r ∈ l, r.token ≠ tok) (hlt : now < exp) :
    ((l.map (fun r => if r.email == e then { r with token := tok, expiry := exp } else r)).filter
        (fun r => r.token == tok && decide (now < r.expiry))).map (fun r => r.email)
      = List.replicate (l.countP (fun r => r.email == e)) e := by
  have hcong : ∀ r ∈ l,
      ((fun r => r.token == tok && decide (now < r.expiry)) ∘
        (fun r => if r.email == e then { r with token := tok, expiry := exp } else r)) r
      = (r.email == e) := by
    intro r hr
    by_cases hc : r.email == e
    · simp only [Function.comp_apply, hc, if_pos]
      simp [hlt]
    · simp only [Function.comp_apply, hc, Bool.false_eq_true, if_false]
      simp [hF r hr, hc]
  rw [List.filter_map, List.filter_congr hcong, List.map_map, List.countP_eq_length_filter,
    ← List.length_map (l.filter fun r => r.email == e)
      ((fun r => r.email) ∘ fun r =>
        if r.email == e then { r with token := tok, expiry := exp } else r)]
  apply List.eq_replicate_length.mpr
  intro b hb
  simp only [List.mem_map, List.mem_filter] at hb
  obtain ⟨r, ⟨_, hre⟩, hb⟩ := hb
  have hre' : r.email = e := by simpa using hre
  subst hb
  simp only [Function.comp_apply, hre, if_pos]
  exact hre'

theorem users_upsert (db : DB) (e tok : String) (exp : Int) :
    (upsertMagicLink db e tok exp).users = db.users := by
  unfold upsertMagicLink
  split <;> rfl

theorem users_invalidate (db : DB) (tok : String) (now : Int) :
    (invalidateToken db tok now).users = db.users := rfl

theorem select_upsert_pos (db : DB) (e tok : String) (exp now : Int)
    (hF : ∀ r ∈ db.magicLinks, r.token ≠ tok) (hlt : now < exp) :
    ∃ rest, selectValidEmails (upsertMagicLink db e tok exp) tok now = e :: rest := by
  unfold upsertMagicLink selectValidEmails
  by_cases hany : db.magicLinks.any (fun r => r.email == e)
  · simp only [hany, if_pos]
    rw [select_upsert_replicate db.magicLinks e tok exp now hF hlt]
    have hpos : 0 < db.magicLinks.countP (fun r => r.email == e) := by
      rw [List.countP_pos_iff]
      simpa [List.any_eq_true] using hany
    rcases hn : db.magicLinks.countP (fun r => r.email == e) with _ | k
    · rw [hn] at hpos
      exact absurd hpos (by simp)
    · rw [hn, List.replicate_succ]
      exact ⟨_, rfl⟩
  · simp only [hany, Bool.false_eq_true, if_false]
    rw [List.filter_append]
    have h1 : db.magicLinks.filter (fun r => r.token == tok && decide (now < r.expiry)) = [] := by
      rw [List.filter_eq_nil_iff]
      intro r hr
      simp [hF r hr]
    rw [h1]
    simp [hlt]

theorem select_upsert_neg (db : DB) (e tok : String) (exp now : Int)
    (hF : ∀ r ∈ db.magicLinks, r.token ≠ tok) (hge : exp ≤ now) :
    selectValidEmails (upsertMagicLink db e tok exp) tok now = [] := by
  apply select_eq_nil_of_no_match
  intro r hr htok
  rcases mem_upsert db e tok exp r hr with ⟨_, _, hexp⟩ | ⟨hmem, _⟩
  · rw [hexp]
    exact hge
  · exact absurd htok (hF r hmem)

theorem validate_issued (db : DB) (email tok s : String) (exp t' : Int) (u : UserRow)
    (hF : ∀ r ∈ db.magicLinks, r.token ≠ tok) (hTok : tok ≠ "")
    (hS : extractToken s = some tok)
    (hu : db.users.find? (fun v => v.email == email) = some u)
    (happ : u.is_approved = true) :
    ((validate_magic_link (upsertMagicLink db email tok exp) "/magic_login" s t').1
        = .success email ↔ t' < exp)
    ∧ (exp ≤ t' →
      (validate_magic_link (upsertMagicLink db email tok exp) "/magic_login" s t').1
        = .errorResponse "Invalid or expired magic link.") := by
  have hfail : exp ≤ t' →
      (validate_magic_link (upsertMagicLink db email tok exp) "/magic_login" s t').1
        = .errorResponse "Invalid or expired magic link." := by
    intro hge
    unfold validate_magic_link
    rw [if_neg (by simp), hS]
    simp only
    rw [if_neg hTok, select_upsert_neg db email tok exp t' hF hge]
  have hsucc : t' < exp →
      (validate_magic_link (upsertMagicLink db email tok exp) "/magic_login" s t').1
        = .success email := by
    intro hlt
    obtain ⟨rest, hsel⟩ := select_upsert_pos db email tok exp t' hF hlt
    unfold validate_magic_link
    rw [if_neg (by simp), hS]
    simp only
    rw [if_neg hTok, hsel]
    simp only
    unfold authenticateUser
    rw [users_invalidate, users_upsert, hu]
    simp [happ]
  constructor
  · constructor
    · intro h
      by_contra hge
      rw [hfail (not_lt.mp hge)] at h
      exact absurd h (by simp)
    · exact hsucc
  · exact hfail

theorem validate_success_inv (db : DB) (pathname s : String) (t : Int) (e : String) (db' : DB)
    (h : validate_magic_link db pathname s t = (.success e, db')) :
    ∃ tok rest, extractToken s = some tok ∧ tok ≠ "" ∧
      selectValidEmails db tok t = e :: rest ∧ db' = invalidateToken db tok t := by
  unfold validate_magic_link at h
  split at h
  · simp at h
  · split at h
    · simp at h
    · rename_i tok htok
      split at h
      · simp at h
      · rename_i hne
        split at h
        · simp at h
        · rename_i em rest hsel
          unfold authenticateUser at h
          simp only [users_invalidate] at h
          split at h
          · simp at h
          · rename_i u hu
            split at h
            · simp at h
            · simp only [Prod.mk.injEq, MagicResult.success.injEq] at h
              exact ⟨tok, rest, htok, hne, h.1 ▸ hsel, h.2.symm⟩

theorem send_link_sent_inv (db : DB) (lnc es : Option Nat) (email : String)
    (flag : Int) (eok : Bool) (t : Int) (tok : String) (db1 : DB)
    (h : send_magic_link db lnc es email flag eok t tok = (.emailSent, db1)) :
    ∃ u, db.users.find? (fun v => v.email == email) = some u ∧ u.is_approved = true ∧
      db1 = upsertMagicLink db email tok (t + 600) := by
  unfold send_magic_link at h
  split at h
  · simp at h
  · split at h
    · simp at h
    · split at h
      · simp at h
      · rename_i u hu
        split at h
        · simp at h
        · rename_i happ
          split at h
          · simp only [Prod.mk.injEq] at h
            refine ⟨u, hu, ?_, h.2.symm⟩
            simpa using happ
          · simp at h

theorem upsert_exists (db : DB) (e tok : String) (exp : Int) :
    ∃ r ∈ (upsertMagicLink db e tok exp).magicLinks,
      r.email = e ∧ r.token = tok ∧ r.expiry = exp := by
  unfold upsertMagicLink
  by_cases hany : db.magicLinks.any (fun r => r.email == e)
  · simp only [hany, if_pos]
    rw [List.any_eq_true] at hany
    obtain ⟨r0, hr0, hr0e⟩ := hany
    refine ⟨{ r0 with token := tok, expiry := exp }, ?_, by simpa using hr0e, rfl, rfl⟩
    simp only [List.mem_map]
    exact ⟨r0, hr0, by rw [if_pos hr0e]⟩
  · simp only [hany, Bool.false_eq_true, if_false]
    exact ⟨{ email := e, token := tok, expiry := exp }, by simp, rfl, rfl, rfl⟩

/-- A database state holding the approved account and one freshly issued,
still valid token row (token `t1`, expiry 600). -/
def issuedDB : DB :=
  { users := [demoUser],
    magicLinks := [{ email := "alice@allianz.com", token := "t1", expiry := 600 }] }

/-- The state of `issuedDB` after token `t1` was consumed at time 10. -/
def consumedDB : DB :=
  { users := [demoUser],
    magicLinks := [{ email := "alice@allianz.com", token := "t1", expiry := 10 }] }

/-- C2: for every token that has been validated successfully once, every
later validation attempt with the same token fails with the generic
invalid-or-expired response (the rendering of `TokenExpired`/`TokenNotFound`),
because the successful validation advanced the row's expiry to the validation
time. -/
theorem c2_single_use_sequential (db : DB) (s s' : String) (t t' : Int) (e : String) (db' : DB)
    (hv : validate_magic_link db "/magic_login" s t = (.success e, db'))
    (hs' : extractToken s' = extractToken s)
    (hle : t ≤ t') :
    (validate_magic_link db' "/magic_login" s' t').1
      = .errorResponse "Invalid or expired magic link." := by
  obtain ⟨tok, rest, htok, hne, hsel, hdb'⟩ := validate_success_inv db _ s t e db' hv
  unfold validate_magic_link
  rw [if_neg (by simp), hs', htok]
  simp only
  rw [if_neg hne, hdb', select_invalidate_eq_nil db tok t t' hle]

/-- Witness for C2 at a concrete input: token `t1` validates successfully at
time 10, and the same token fails at the later time 600. -/
theorem c2_single_use_sequential_witness :
    validate_magic_link issuedDB "/magic_login" "?token=t1" 10
      = (.success "alice@allianz.com", consumedDB)
    ∧ (validate_magic_link consumedDB "/magic_login" "?token=t1" 600).1
      = .errorResponse "Invalid or expired magic link." :=
  ⟨by decide,
   c2_single_use_sequential issuedDB "?token=t1" "?token=t1" 10 600 "alice@allianz.com"
     consumedDB (by decide) rfl (by decide)⟩

/-- C4: a token issued at time `t` (expiry `t + 600` seconds), never consumed
and never overwritten, validates successfully at `t'` exactly when `t'` is
strictly before `t + 600`; at or after that bound, validation fails with the
generic invalid-or-expired response even though the row was never consumed. -/
theorem c4_expiry_window (db0 : DB) (lnc es : Option Nat) (email : String) (flag : Int)
    (eok : Bool) (t : Int) (tok s : String) (db1 : DB) (t' : Int)
    (hIss : send_magic_link db0 lnc es email flag eok t tok = (.emailSent, db1))
    (hF : ∀ r ∈ db0.magicLinks, r.token ≠ tok)
    (hTok : tok ≠ "") (hS : extractToken s = some tok) :
    ((validate_magic_link db1 "/magic_login" s t').1 = .success email ↔ t' < t + 600)
    ∧ (t + 600 ≤ t' → (validate_magic_link db1 "/magic_login" s t').1
        = .errorResponse "Invalid or expired magic link.") := by
  obtain ⟨u, hu, happ, hdb1⟩ := send_link_sent_inv db0 lnc es email flag eok t tok db1 hIss
  subst hdb1
  exact validate_issued db0 email tok s (t + 600) t' u hF hTok hS hu happ

/-- Witness for C4 at a concrete input: issuance at time 0 yields expiry 600;
validation at time 10 succeeds, and the iff equates that with 10 < 600. -/
theorem c4_expiry_window_witness :
    send_magic_link demoDB (some 1) (some 0) "alice@allianz.com" 0 true 0 "t1"
      = (.emailSent, issuedDB)
    ∧ ((validate_magic_link issuedDB "/magic_login" "?token=t1" 10).1
        = .success "alice@allianz.com" ↔ (10 : Int) < 0 + 600) :=
  ⟨by decide,
   (c4_expiry_window demoDB (some 1) (some 0) "alice@allianz.com" 0 true 0 "t1" "?token=t1"
     issuedDB 10 (by decide) (by decide) (by decide) (by decide)).1⟩

/-- C10: an issuance request whose email is empty or fails the pattern
`[a-zA-Z0-9_.+-]+@allianz.(com|de)` is silently aborted by `PreventUpdate`:
the result is `prevented` and the database is returned untouched — no account
lookup result, no token row, no email, no user-visible error. -/
theorem c10_invalid_email_prevented (db : DB) (lnc es : Option Nat) (email : String)
    (flag : Int) (eok : Bool) (t : Int) (tok : String)
    (h : email = "" ∨ emailRegexMatch email = false) :
    send_magic_link db lnc es email flag eok t tok = (.prevented, db) := by
  have hsome : (validate_email email).isSome = true := by
    unfold validate_email
    rcases h with h | h
    · rw [if_pos h]
      rfl
    · by_cases he : email = ""
      · rw [if_pos he]
        rfl
      · rw [if_neg he, if_neg (by simp [h])]
        rfl
  unfold send_magic_link
  rw [if_pos hsome]

/-- Witness for C10 at a concrete input: a non-Allianz email is silently
dropped with the database unchanged. -/
theorem c10_invalid_email_prevented_witness :
    emailRegexMatch "alice@gmail.com" = false
    ∧ send_magic_link demoDB (some 1) (some 0) "alice@gmail.com" 0 true 0 "t1"
        = (.prevented, demoDB) :=
  ⟨by decide,
   c10_invalid_email_prevented demoDB (some 1) (some 0) "alice@gmail.com" 0 true 0 "t1"
     (Or.inr (by decide))⟩

/-- The state of `issuedDB` after a second issuance for the same email at
time 5 minted token `t2`: the single row was overwritten, not appended to. -/
def overwrittenDB : DB :=
  { users := [demoUser],
    magicLinks := [{ email := "alice@allianz.com", token := "t2", expiry := 605 }] }

/-- C3: the upsert keeps at most one token row per email (`Nodup` on the
emails is preserved), and after two successive issuances for the same email
the first token fails validation at every time while the second validates
exactly within its own expiry window. -/
theorem c3_per_email_overwrite (db0 : DB) (lnc es lnc' es' : Option Nat) (email : String)
    (f1 f2 : Int) (eok1 eok2 : Bool) (t1 t2 : Int) (tok1 tok2 s1 s2 : String) (db1 db2 : DB)
    (h1 : send_magic_link db0 lnc es email f1 eok1 t1 tok1 = (.emailSent, db1))
    (h2 : send_magic_link db1 lnc' es' email f2 eok2 t2 tok2 = (.emailSent, db2))
    (hF1 : ∀ r ∈ db0.magicLinks, r.token ≠ tok1)
    (hF2 : ∀ r ∈ db0.magicLinks, r.token ≠ tok2)
    (hne : tok1 ≠ tok2) (hTok1 : tok1 ≠ "") (hTok2 : tok2 ≠ "")
    (hS1 : extractToken s1 = some tok1) (hS2 : extractToken s2 = some tok2)
    (hNodup : (db0.magicLinks.map (fun r => r.email)).Nodup) :
    ((db2.magicLinks.map (fun r => r.email)).Nodup)
    ∧ (∀ t', (validate_magic_link db2 "/magic_login" s1 t').1
        = .errorResponse "Invalid or expired magic link.")
    ∧ (∀ t', ((validate_magic_link db2 "/magic_login" s2 t').1
        = .success email ↔ t' < t2 + 600)) := by
  obtain ⟨u1, hu1, happ1, hdb1⟩ := send_link_sent_inv db0 lnc es email f1 eok1 t1 tok1 db1 h1
  obtain ⟨u2, hu2, happ2, hdb2⟩ := send_link_sent_inv db1 lnc' es' email f2 eok2 t2 tok2 db2 h2
  subst hdb1
  subst hdb2
  have hF2' : ∀ r ∈ (upsertMagicLink db0 email tok1 (t1 + 600)).magicLinks, r.token ≠ tok2 := by
    intro r hr
    rcases mem_upsert db0 email tok1 (t1 + 600) r hr with ⟨_, htk, _⟩ | ⟨hmem, _⟩
    · rw [htk]
      exact hne
    · exact hF2 r hmem
  have hF1'' : ∀ r ∈ (upsertMagicLink (upsertMagicLink db0 email tok1 (t1 + 600))
      email tok2 (t2 + 600)).magicLinks, r.token ≠ tok1 := by
    intro r hr
    rcases mem_upsert _ email tok2 (t2 + 600) r hr with ⟨_, htk, _⟩ | ⟨hmem, hrem⟩
    · rw [htk]
      exact hne.symm
    · rcases mem_upsert db0 email tok1 (t1 + 600) r hmem with ⟨hem, _, _⟩ | ⟨hmem0, _⟩
      · exact absurd hem hrem
      · exact hF1 r hmem0
  refine ⟨?_, ?_, ?_⟩
  · exact upsert_emails_nodup _ email tok2 _ (upsert_emails_nodup db0 email tok1 _ hNodup)
  · intro t'
    unfold validate_magic_link
    rw [if_neg (by simp), hS1]
    simp only
    rw [if_neg hTok1,
      select_eq_nil_of_no_match _ tok1 t' (fun r hr htk => absurd htk (hF1'' r hr))]
  · intro t'
    exact (validate_issued (upsertMagicLink db0 email tok1 (t1 + 600)) email tok2 s2
      (t2 + 600) t' u2 hF2' hTok2 hS2 hu2 happ2).1

/-- Witness for C3 at a concrete input: after issuing `t1` (time 0) and then
`t2` (time 5) for the same email, the store holds one row, token `t1` fails
at time 42 and token `t2` validates at time 10. -/
theorem c3_per_email_overwrite_witness :
    send_magic_link demoDB (some 1) (some 0) "alice@allianz.com" 0 true 0 "t1"
      = (.emailSent, issuedDB)
    ∧ send_magic_link issuedDB (some 1) (some 0) "alice@allianz.com" 0 true 5 "t2"
      = (.emailSent, overwrittenDB)
    ∧ (validate_magic_link overwrittenDB "/magic_login" "?token=t1" 42).1
      = .errorResponse "Invalid or expired magic link."
    ∧ ((validate_magic_link overwrittenDB "/magic_login" "?token=t2" 10).1
      = .success "alice@allianz.com" ↔ (10 : Int) < 5 + 600) := by
  have h := c3_per_email_overwrite demoDB (some 1) (some 0) (some 1) (some 0)
    "alice@allianz.com" 0 0 true true 0 5 "t1" "t2" "?token=t1" "?token=t2"
    issuedDB overwrittenDB (by decide) (by decide) (by decide) (by decide) (by decide)
    (by decide) (by decide) (by decide) (by decide) (by decide)
  exact ⟨by decide, by decide, h.2.1 42, h.2.2 10⟩

/-- C6: when the token row is valid but the account is unapproved at
validation time, the user gets the not-approved error, no login happens, and
the token was already consumed (its rows' expiry was set to the validation
time before the approval check), so it cannot be retried. -/
theorem c6_approval_rechecked (db : DB) (s tok e : String) (t : Int)
    (rest : List String) (u : UserRow)
    (hS : extractToken s = some tok) (hTok : tok ≠ "")
    (hsel : selectValidEmails db tok t = e :: rest)
    (hu : db.users.find? (fun v => v.email == e) = some u)
    (happ : u.is_approved = false) :
    validate_magic_link db "/magic_login" s t
      = (.errorResponse "Your account is not approved yet. Please contact the admin.",
        invalidateToken db tok t)
    ∧ (∀ e', (validate_magic_link db "/magic_login" s t).1 ≠ .success e')
    ∧ (∀ t'', t ≤ t'' →
        selectValidEmails (validate_magic_link db "/magic_login" s t).2 tok t'' = []) := by
  have hmain : validate_magic_link db "/magic_login" s t
      = (.errorResponse "Your account is not approved yet. Please contact the admin.",
        invalidateToken db tok t) := by
    unfold validate_magic_link
    rw [if_neg (by simp), hS]
    simp only
    rw [if_neg hTok, hsel]
    simp only
    unfold authenticateUser
    rw [users_invalidate, hu]
    simp [happ]
  refine ⟨hmain, ?_, ?_⟩
  · intro e'
    rw [hmain]
    simp
  · intro t'' h''
    rw [hmain]
    exact select_invalidate_eq_nil db tok t t'' h''

/-- An unapproved account with an outstanding valid token row. -/
def bobUser : UserRow :=
  { user_id := 2, name := "Bob", email := "bob@allianz.com", is_admin := false,
    is_approved := false }

/-- Database for the unapproved-account scenario. -/
def bobDB : DB :=
  { users := [bobUser],
    magicLinks := [{ email := "bob@allianz.com", token := "t9", expiry := 600 }] }

/-- Witness for C6 at a concrete input: Bob's valid token yields the
not-approved error and the row is consumed (no longer selectable later). -/
theorem c6_approval_rechecked_witness :
    (validate_magic_link bobDB "/magic_login" "?token=t9" 10).1
      = .errorResponse "Your account is not approved yet. Please contact the admin."
    ∧ selectValidEmails (validate_magic_link bobDB "/magic_login" "?token=t9" 10).2 "t9" 50
      = [] := by
  have h := c6_approval_rechecked bobDB "?token=t9" "t9" "bob@allianz.com" 10 [] bobUser
    (by decide) (by decide) (by decide) (by decide) (by decide)
  exact ⟨by rw [h.1], h.2.2 50 (by decide)⟩

/-- C7: when the token row was written but the email-delivery collaborator
returns failure, the issuance is reported as a failure to the requester while
the freshly written token row stays in the store. -/
theorem c7_delivery_failure (db : DB) (lnc es : Option Nat) (email : String) (flag t : Int)
    (tok : String) (u : UserRow)
    (hval : validate_email email = none)
    (hclick : ¬(((lnc = none ∨ lnc = some 0) ∧ (es = none ∨ es = some 0)) ∨ flag > 0))
    (hu : db.users.find? (fun v => v.email == email) = some u)
    (happ : u.is_approved = true) :
    send_magic_link db lnc es email flag false t tok
      = (.errorAlert "An error occurred. Please try again later.",
        upsertMagicLink db email tok (t + 600))
    ∧ ∃ r ∈ (upsertMagicLink db email tok (t + 600)).magicLinks,
        r.email = email ∧ r.token = tok ∧ r.expiry = t + 600 := by
  constructor
  · unfold send_magic_link
    rw [if_neg (by simp [hval]), if_neg hclick, hu]
    simp [happ]
  · exact upsert_exists db email tok (t + 600)

/-- Witness for C7 at a concrete input: delivery failure reports an error
while the row for token `t1` is in the store with expiry 600. -/
theorem c7_delivery_failure_witness :
    send_magic_link demoDB (some 1) (some 0) "alice@allianz.com" 0 false 0 "t1"
      = (.errorAlert "An error occurred. Please try again later.",
        upsertMagicLink demoDB "alice@allianz.com" "t1" (0 + 600))
    ∧ ∃ r ∈ (upsertMagicLink demoDB "alice@allianz.com" "t1" (0 + 600)).magicLinks,
        r.email = "alice@allianz.com" ∧ r.token = "t1" ∧ r.expiry = 0 + 600 :=
  c7_delivery_failure demoDB (some 1) (some 0) "alice@allianz.com" 0 0 "t1" demoUser
    (by decide) (by decide) (by decide) rfl

/-- C8: a missing or malformed token, an unknown token, and an expired token
all produce one and the same user-visible response, the generic
invalid-or-expired error card. -/
theorem c8_indistinguishable_failures (db1 db2 db3 : DB) (s1 s2 s3 : String)
    (t1 t2 t3 : Int) (tok2 tok3 : String)
    (h1 : extractToken s1 = none ∨ extractToken s1 = some "")
    (h2 : extractToken s2 = some tok2) (hTok2 : tok2 ≠ "")
    (hnf : ∀ r ∈ db2.magicLinks, r.token ≠ tok2)
    (h3 : extractToken s3 = some tok3) (hTok3 : tok3 ≠ "")
    (_hrow : ∃ r ∈ db3.magicLinks, r.token = tok3)
    (hexp : ∀ r ∈ db3.magicLinks, r.token = tok3 → r.expiry ≤ t3) :
    ((validate_magic_link db1 "/magic_login" s1 t1).1
      = (validate_magic_link db2 "/magic_login" s2 t2).1)
    ∧ ((validate_magic_link db2 "/magic_login" s2 t2).1
      = (validate_magic_link db3 "/magic_login" s3 t3).1)
    ∧ ((validate_magic_link db3 "/magic_login" s3 t3).1
      = .errorResponse "Invalid or expired magic link.") := by
  have e1 : (validate_magic_link db1 "/magic_login" s1 t1).1
      = .errorResponse "Invalid or expired magic link." := by
    unfold validate_magic_link
    rcases h1 with h | h
    · rw [if_neg (by simp), h]
    · rw [if_neg (by simp), h]
      simp
  have e2 : (validate_magic_link db2 "/magic_login" s2 t2).1
      = .errorResponse "Invalid or expired magic link." := by
    unfold validate_magic_link
    rw [if_neg (by simp), h2]
    simp only
    rw [if_neg hTok2,
      select_eq_nil_of_no_match db2 tok2 t2 (fun r hr htk => absurd htk (hnf r hr))]
  have e3 : (validate_magic_link db3 "/magic_login" s3 t3).1
      = .errorResponse "Invalid or expired magic link." := by
    unfold validate_magic_link
    rw [if_neg (by simp), h3]
    simp only
    rw [if_neg hTok3, select_eq_nil_of_no_match db3 tok3 t3 hexp]
  exact ⟨e1.trans e2.symm, e2.trans e3.symm, e3⟩

/-- Database for the expired-token scenario: token `t3` expired at time 5. -/
def expiredDB : DB :=
  { users := [demoUser],
    magicLinks := [{ email := "alice@allianz.com", token := "t3", expiry := 5 }] }

/-- Witness for C8 at concrete inputs: a query without a token, an unknown
token `t7`, and the expired token `t3` at time 10 give identical responses. -/
theorem c8_indistinguishable_failures_witness :
    ((validate_magic_link demoDB "/magic_login" "?foo=1" 0).1
      = (validate_magic_link demoDB "/magic_login" "?token=t7" 0).1)
    ∧ ((validate_magic_link demoDB "/magic_login" "?token=t7" 0).1
      = (validate_magic_link expiredDB "/magic_login" "?token=t3" 10).1)
    ∧ ((validate_magic_link expiredDB "/magic_login" "?token=t3" 10).1
      = .errorResponse "Invalid or expired magic link.") :=
  c8_indistinguishable_failures demoDB demoDB expiredDB "?foo=1" "?token=t7" "?token=t3"
    0 0 10 "t7" "t3" (Or.inl (by decide)) (by decide) (by decide) (by decide) (by decide)
    (by decide) (by decide) (by decide)

theorem pollRun_of_disabled (s : PollState) (h : s.disabled = true) :
    ∀ j, pollRun s j = s := by
  intro j
  induction j with
  | zero => rfl
  | succ k ih =>
    show pollRun (pollStep s) k = s
    rw [show pollStep s = s by unfold pollStep; rw [if_pos h]]
    exact ih

theorem pollStep_final (s : PollState) (h : s.disabled = false) (hn : s.n + 1 = 600) :
    pollStep s = { n := 600, flag := s.flag, disabled := true } := by
  unfold pollStep poll_tick
  rw [if_neg (by simp [h])]
  simp [hn]

theorem pollStep_running (s : PollState) (h : s.disabled = false) (hn : s.n + 1 < 600) :
    (pollStep s).n = s.n + 1 ∧ (pollStep s).disabled = false := by
  unfold pollStep poll_tick
  rw [if_neg (by simp [h]), if_neg (by simp), if_neg (by omega)]
  by_cases hf : s.flag > 0
  · rw [if_pos hf]
    exact ⟨rfl, rfl⟩
  · rw [if_neg hf]
    exact ⟨rfl, rfl⟩

theorem pollRun_reaches_timeout : ∀ (m : Nat) (s : PollState), s.disabled = false →
    s.n + m = 600 → 0 < m →
    ∃ f, pollRun s m = { n := 600, flag := f, disabled := true } := by
  intro m
  induction m with
  | zero =>
    intro s _ _ h0
    exact absurd h0 (by simp)
  | succ k ih =>
    intro s hd hn _
    rcases Nat.eq_zero_or_pos k with hk | hk
    · subst hk
      refine ⟨s.flag, ?_⟩
      show pollRun (pollStep s) 0 = _
      rw [pollStep_final s hd (by omega)]
      rfl
    · show ∃ f, pollRun (pollStep s) k = _
      obtain ⟨h1, h2⟩ := pollStep_running s hd (by omega)
      exact ih (pollStep s) h2 (by omega) hk

/-- C9: the `poll_auth` interval fires once per second (interval 1000 ms);
in a run where the success flag is never observed set, starting from any
enabled state with fewer than 600 elapsed ticks, the loop reaches the
600-tick state, polling becomes disabled and stays disabled forever (no
further ticks), and the timeout tick disables the interval while relabeling
the button "Reload Page" to prompt a manual reload. -/
theorem c9_poll_timeout (n0 : Nat) (f0 : Int) (hn : n0 < 600) :
    poll_auth_interval_ms = 1000
    ∧ (∃ f, pollRun { n := n0, flag := f0, disabled := false } (600 - n0)
          = { n := 600, flag := f, disabled := true }
        ∧ ∀ j, pollRun { n := 600, flag := f, disabled := true } j
          = { n := 600, flag := f, disabled := true })
    ∧ (∀ fl, (poll_tick false 600 fl).pollDisabled = true
        ∧ (poll_tick false 600 fl).loginBtnLabel = some "Reload Page") := by
  refine ⟨rfl, ?_, ?_⟩
  · obtain ⟨f, hf⟩ := pollRun_reaches_timeout (600 - n0)
      { n := n0, flag := f0, disabled := false } rfl
      (by show n0 + (600 - n0) = 600; omega) (by omega)
    exact ⟨f, hf, fun j => pollRun_of_disabled _ rfl j⟩
  · intro fl
    constructor <;> (unfold poll_tick; rw [if_neg (by simp), if_pos (by omega)])

/-- Witness for C9 at a concrete input: starting at 598 elapsed ticks with a
resend flag of 5, two more ticks reach the disabled 600-tick state. -/
theorem c9_poll_timeout_witness :
    598 < 600
    ∧ (poll_auth_interval_ms = 1000
      ∧ (∃ f, pollRun { n := 598, flag := 5, disabled := false } (600 - 598)
            = { n := 600, flag := f, disabled := true }
          ∧ ∀ j, pollRun { n := 600, flag := f, disabled := true } j
            = { n := 600, flag := f, disabled := true })
      ∧ (∀ fl, (poll_tick false 600 fl).pollDisabled = true
          ∧ (poll_tick false 600 fl).loginBtnLabel = some "Reload Page")) :=
  ⟨by decide, c9_poll_timeout 598 5 (by decide)⟩

/-- A database with the approved account and one outstanding valid token
`tok1` (expiry 1000), the target of the concurrent validation attempts. -/
def concDB : DB :=
  { users := [demoUser],
    magicLinks := [{ email := "alice@allianz.com", token := "tok1", expiry := 1000 }] }

/-- Two concurrent validation attempts with the same token, both starting at
time 10, neither having run yet. -/
def concStart : ConcState :=
  { db := concDB,
    attempts := [{ now := 10, phase := .initial }, { now := 10, phase := .initial }] }

/-- C1: the source performs the validity check (`SELECT`) and the consumption
(`UPDATE`) as two separate unguarded statements, so validation is not one
atomic check-and-update step: under the interleaving in which both attempts
run their check before either consumes, both of two concurrent validation
attempts with the same valid token return success, while the fully serialized
interleaving of the very same attempts yields exactly one success. -/
theorem c1_validation_race_double_success :
    selectValidEmails concDB "tok1" 10 = ["alice@allianz.com"]
    ∧ successCount (runSchedule "tok1" concStart
        [.check 0, .check 1, .consume 0, .consume 1]) = 2
    ∧ successCount (runSchedule "tok1" concStart
        [.check 0, .consume 0, .check 1, .consume 1]) = 1 := by
  refine ⟨by decide, by decide, by decide⟩

/-- C5 counterexample: the account store knows `alice@allianz.com`; a request
for `Alice@allianz.com` differs from it only in letter case (their
lowercasings agree), yet issuance answers with the unknown-account error
"Email not registered!", because the lookup `WHERE email = :email` compares
exactly. -/
theorem c5_case_insensitive_counterexample :
    (send_magic_link demoDB (some 1) (some 0) "Alice@allianz.com" 0 true 0 "t1").1
      = .errorAlert "Email not registered!"
    ∧ "Alice@allianz.com".toList.map Char.toLower = demoUser.email.toList.map Char.toLower
    ∧ "Alice@allianz.com" ≠ demoUser.email := by
  refine ⟨by decide, by decide, by decide⟩

/-- C5 as amended: issuance fails with the unknown-account error exactly when
no account's email is exactly (case-sensitively) equal to the requested
email; an email differing from a registered one only in letter case does fail
with the unknown-account error. -/
theorem c5_exact_match_lookup (db : DB) (lnc es : Option Nat) (email : String)
    (flag : Int) (eok : Bool) (t : Int) (tok : String)
    (hval : validate_email email = none)
    (hclick : ¬(((lnc = none ∨ lnc = some 0) ∧ (es = none ∨ es = some 0)) ∨ flag > 0)) :
    (send_magic_link db lnc es email flag eok t tok).1 = .errorAlert "Email not registered!"
      ↔ ∀ u ∈ db.users, u.email ≠ email := by
  unfold send_magic_link
  rw [if_neg (by simp [hval]), if_neg hclick]
  rcases hfind : db.users.find? (fun u => u.email == email) with _ | u
  · rw [hfind]
    rw [List.find?_eq_none] at hfind
    constructor
    · intro _ u hu
      simpa using hfind u hu
    · intro _
      rfl
  · have hmem := List.mem_of_find?_eq_some hfind
    have hemail : u.email = email := by
      have := List.find?_some hfind
      simpa using this
    rw [hfind]
    simp only
    constructor
    · intro h
      by_cases happ : u.is_approved
      · rw [if_neg (by simp [happ])] at h
        by_cases heok : eok = true
        · rw [if_pos heok] at h
          exact absurd h (by simp)
        · rw [if_neg heok] at h
          exact absurd h (by simp)
      · rw [if_pos (by simp [happ])] at h
        exact absurd h (by simp)
    · intro h
      exact absurd hemail (h u hmem)

/-- Witness for the amended C5 at a concrete input: for the mixed-case email,
the equivalence holds on `demoDB`, and its right-hand side is true, so the
issuance answers with the unknown-account error. -/
theorem c5_exact_match_lookup_witness :
    ((send_magic_link demoDB (some 1) (some 0) "Alice@allianz.com" 0 true 0 "t1").1
        = .errorAlert "Email not registered!"
      ↔ ∀ u ∈ demoDB.users, u.email ≠ "Alice@allianz.com") :=
  c5_exact_match_lookup demoDB (some 1) (some 0) "Alice@allianz.com" 0 true 0 "t1"
    (by decide) (by decide)

end Hercules
